import Mathlib

/-
Verification of the giphy_adapter request/retry/transform pipeline.

Shallow embedding of src/giphy_adapter: models.py, utils.py and the
pipeline methods of adapter.py (search_gifs, get_random_gif,
_make_request, _transform_response, _handle_error).

Modelling conventions:
- JSON values are modelled by the inductive JValue; numeric JSON atoms
  are modelled as integers (no floats appear in any claim).
- Python exceptions are modelled by the inductive PyError; a function
  that can raise returns Except PyError.
- The network is a parameter: a function from the request parameters and
  the attempt number (starting at 1) to the outcome of that attempt.
- Backoff sleeps are not executed; the pipeline records the sequence of
  requested delay durations (exact rationals) and the number of attempts.
- dict.get is modelled by pyGetD and pyGetOpt; calling .get on a
  non-dict raises AttributeError, as in Python.
- int(x) is modelled by pyInt: ints pass through, bools become 0 or 1,
  strings are parsed with optional sign (ValueError on failure), and
  None, lists and dicts raise TypeError.
-/

namespace Giphy

/-- JSON-like values as parsed from the upstream HTTP body. -/
inductive JValue where
  | jnull
  | jbool (b : Bool)
  | jint (n : Int)
  | jstr (s : String)
  | jarr (elems : List JValue)
  | jobj (fields : List (String × JValue))
deriving Repr

/-- First binding of a key in a field list (Python dict lookup). -/
def lookupField : List (String × JValue) → String → Option JValue
  | [], _ => Option.none
  | (k, v) :: rest, key => if k = key then some v else lookupField rest key

/-- The Python exceptions that can flow through the pipeline.
GiphyTimeout and GiphyValidation are subclasses of GiphyError in
exceptions.py; they are separate constructors here and the isinstance
checks of adapter.py are mirrored explicitly. -/
inductive PyError where
  | giphyError (msg : String)
  | giphyTimeout (msg : String)
  | giphyValidation (msg : String)
  | clientResponseError (status : Nat) (msg : String)
  | clientError (msg : String)
  | valueError (msg : String)
  | typeError (msg : String)
  | attributeError (msg : String)
  | indexError (msg : String)
  | asyncioTimeout
deriving Repr, DecidableEq

/-- str(error): the message text carried by an exception. -/
def PyError.text : PyError → String
  | .giphyError m => m
  | .giphyTimeout m => m
  | .giphyValidation m => m
  | .clientResponseError _ m => m
  | .clientError m => m
  | .valueError m => m
  | .typeError m => m
  | .attributeError m => m
  | .indexError m => m
  | .asyncioTimeout => ""

/-- isinstance(e, aiohttp.ClientError): ClientResponseError is a
subclass of ClientError in aiohttp. -/
def PyError.isAiohttpClientError : PyError → Bool
  | .clientResponseError _ _ => true
  | .clientError _ => true
  | _ => false

/-- d.get(key, default) on a JSON value: AttributeError on a non-dict. -/
def pyGetD (v : JValue) (key : String) (dflt : JValue) : Except PyError JValue :=
  match v with
  | .jobj fields => .ok ((lookupField fields key).getD dflt)
  | _ => .error (.attributeError "object has no attribute get")

/-- d.get(key) on a JSON value, returning None when absent. -/
def pyGetOpt (v : JValue) (key : String) : Except PyError (Option JValue) :=
  match v with
  | .jobj fields => .ok (lookupField fields key)
  | _ => .error (.attributeError "object has no attribute get")

/-- Decimal digits to a natural number; none if empty or a non-digit. -/
def digitsToNat (cs : List Char) : Option Nat :=
  if cs = [] then Option.none
  else if cs.all (fun c => c.isDigit) then
    some (cs.foldl (fun acc c => acc * 10 + (c.toNat - 48)) 0)
  else Option.none

/-- int(s) for a string s: surrounding whitespace stripped, optional
sign, then decimal digits; none models ValueError. -/
def pyIntOfString (s : String) : Option Int :=
  let cs := ((s.toList.dropWhile Char.isWhitespace).reverse.dropWhile Char.isWhitespace).reverse
  match cs with
  | '-' :: rest => (digitsToNat rest).map (fun n => -(n : Int))
  | '+' :: rest => (digitsToNat rest).map (fun n => (n : Int))
  | rest => (digitsToNat rest).map (fun n => (n : Int))

/-- int(x) applied to a JSON value. -/
def pyInt : JValue → Except PyError Int
  | .jint n => .ok n
  | .jbool b => .ok (if b then 1 else 0)
  | .jstr s =>
    match pyIntOfString s with
    | some n => .ok n
    | Option.none => .error (.valueError ("invalid literal for int with base 10: " ++ s))
  | .jnull => .error (.typeError "int argument must be a string or a number, not NoneType")
  | .jarr _ => .error (.typeError "int argument must be a string or a number")
  | .jobj _ => .error (.typeError "int argument must be a string or a number")

/-- Python equality between an optional JSON value and an int literal
(None, strings, lists and dicts are never equal to an int; True equals 1). -/
def pyEqInt : Option JValue → Int → Bool
  | some (.jint m), n => m == n
  | some (.jbool b), n => (if b then (1 : Int) else 0) == n
  | _, _ => false

/-- str(x) as interpolated into an f-string. -/
def pyStr : JValue → String
  | .jnull => "None"
  | .jbool b => if b then "True" else "False"
  | .jint n => toString n
  | .jstr s => s
  | .jarr _ => "[...]"
  | .jobj _ => "\x7b...\x7d"

/-- Iterating a JSON value with a for loop: lists yield their elements,
dicts their keys, strings their characters; other values raise TypeError. -/
def pyIter : JValue → Except PyError (List JValue)
  | .jarr xs => .ok xs
  | .jobj fields => .ok (fields.map (fun kv => JValue.jstr kv.fst))
  | .jstr s => .ok (s.toList.map (fun c => JValue.jstr (String.singleton c)))
  | _ => .error (.typeError "object is not iterable")

/-- models.py ErrorType. -/
inductive ErrorType where
  | TIMEOUT
  | CLIENT_ERROR
  | SERVER_ERROR
  | NETWORK_ERROR
  | VALIDATION_ERROR
  | UNKNOWN_ERROR
deriving Repr, DecidableEq

/-- models.py GifImage. The url field holds the raw value stored by the
dataclass; width, height and size are the results of int() coercion. -/
structure GifImage where
  url : JValue
  width : Int
  height : Int
  size : Int := 0
deriving Repr

/-- models.py GifData. The non-image fields hold the raw values the
dataclass stores, exactly as Python does (it performs no type check). -/
structure GifData where
  id : JValue
  title : JValue
  url : JValue
  rating : JValue
  created_at : JValue
  tags : JValue
  original : GifImage
  preview : GifImage
  thumbnail : GifImage
deriving Repr

/-- models.py PaginationData; fields hold the raw upstream values. -/
structure PaginationData where
  total : JValue
  count : JValue
  offset : JValue
deriving Repr

/-- The error dict attached to a failure AdapterResponse. The wall-clock
timestamp field is not modelled. -/
structure ErrorInfo where
  type : ErrorType
  message : String
  method : String
deriving Repr

/-- The data field of AdapterResponse: None, a list of GifData, or a
single GifData. -/
inductive AdapterData where
  | none
  | list (gifs : List GifData)
  | single (gif : GifData)
deriving Repr

/-- Python truthiness of the data field: None and the empty list are
falsy; a dataclass instance is truthy. -/
def AdapterData.truthy : AdapterData → Bool
  | .none => false
  | .list gifs => !gifs.isEmpty
  | .single _ => true

/-- models.py AdapterResponse. -/
structure AdapterResponse where
  success : Bool
  data : AdapterData
  pagination : Option PaginationData := Option.none
  message : String := ""
  error : Option ErrorInfo := Option.none
deriving Repr

/-- The adapter configuration assembled in GiphyAdapter init. The
timeout duration is not modelled (per-attempt timeouts appear as an
attempt outcome); retry_delay is an exact rational. -/
structure Config where
  api_key : String := "key"
  limit : Int := 10
  rating : String := "pg"
  lang : String := "en"
  retry_attempts : Nat := 3
  retry_delay : ℚ := 1
deriving Repr

/-- Caller-supplied keyword options of search_gifs. -/
structure SearchOptions where
  limit : Option Int := Option.none
  offset : Option Int := Option.none
  rating : Option String := Option.none
  lang : Option String := Option.none
deriving Repr

/-- The search_params dict built by search_gifs (api_key is injected by
_make_request). -/
structure SearchParams where
  q : String
  limit : Int
  offset : Int
  rating : String
  lang : String
  api_key : String := ""
deriving Repr, DecidableEq

/-- The search_params construction in search_gifs: query stripped, limit
clamped by min(.., 50), defaults drawn from the adapter config. -/
def searchParams (cfg : Config) (query : String) (opts : SearchOptions) : SearchParams :=
  { q := query.trim
    limit := min (opts.limit.getD cfg.limit) 50
    offset := opts.offset.getD 0
    rating := opts.rating.getD cfg.rating
    lang := opts.lang.getD cfg.lang }

/-- The valid ratings set of utils.py. -/
def validRatings : List String := ["g", "pg", "pg-13", "r"]

/-- utils.py validate_search_params. The isinstance(int) checks hold by
typing here; the message for the rating branch is fixed text (Python
joins a set in nondeterministic order). -/
def validate_search_params (limit offset : Int) (rating : String) : Except PyError Unit :=
  if limit < 1 ∨ limit > 50 then
    .error (.valueError "Limit must be an integer between 1 and 50")
  else if offset < 0 then
    .error (.valueError "Offset must be a non-negative integer")
  else if rating ∈ validRatings then .ok ()
  else .error (.valueError "Rating must be one of: g, pg, pg-13, r")

/-- What the environment does on one HTTP attempt: the per-request
timeout elapses, a transport-level fault below HTTP occurs, or an HTTP
response with a status and a parsed JSON body arrives. -/
inductive AttemptOutcome where
  | timeout
  | transportFault (msg : String)
  | http (status : Nat) (reason : String) (body : JValue)
deriving Repr

/-- The meta-status check on a parsed 200 body in _make_request: the
meta.status field of the JSON body is compared with 200 and a mismatch
raises GiphyError with the meta.msg text. -/
def attemptBody (body : JValue) : Except PyError JValue := do
  let meta ← pyGetD body "meta" (.jobj [])
  let st ← pyGetOpt meta "status"
  if pyEqInt st 200 then
    return body
  else do
    let msgv ← pyGetD meta "msg" (.jstr "Unknown error")
    throw (.giphyError ("Giphy API Error: " ++ pyStr msgv))

/-- The try-block body of one attempt in _make_request: non-200 HTTP
status raises ClientResponseError; a 200 response proceeds to the
meta-status check of its parsed body. -/
def attemptOnce (out : AttemptOutcome) : Except PyError JValue :=
  match out with
  | .timeout => .error .asyncioTimeout
  | .transportFault msg => .error (.clientError msg)
  | .http status reason body =>
    if status ≠ 200 then
      .error (.clientResponseError status ("HTTP " ++ toString status ++ ": " ++ reason))
    else attemptBody body

/-- The except clauses of the attempt loop: asyncio.TimeoutError becomes
GiphyTimeout; any aiohttp.ClientError (ClientResponseError included, it
is a subclass) is wrapped into a plain GiphyError whose message embeds
str(error); anything else is kept as-is. -/
def classifyAttemptError (e : PyError) : PyError :=
  match e with
  | .asyncioTimeout => .giphyTimeout "Request timeout"
  | .clientResponseError _ m => .giphyError ("Client error: " ++ m)
  | .clientError m => .giphyError ("Client error: " ++ m)
  | e => e

/-- Result of _make_request together with the observable retry trace:
how many attempts ran and which backoff delays were requested. -/
structure RequestOutcome where
  result : Except PyError JValue
  attempts : Nat
  delays : List ℚ
deriving Repr

/-- The retry loop of _make_request: attempts are numbered from 1; after
a failed attempt other than the last, sleep retry_delay * attempt; once
the budget is exhausted the last error is raised. The base case models
raise None when retry_attempts is 0 (a TypeError at runtime). -/
def makeRequestLoop (cfg : Config) (net : Nat → AttemptOutcome) :
    Nat → Nat → Option PyError → RequestOutcome
  | _, 0, last =>
    { result := .error (last.getD (.typeError "exceptions must derive from BaseException"))
      attempts := 0
      delays := [] }
  | attempt, remaining + 1, _ =>
    match attemptOnce (net attempt) with
    | .ok body => { result := .ok body, attempts := 1, delays := [] }
    | .error e =>
      let le := classifyAttemptError e
      if remaining = 0 then
        { result := .error le, attempts := 1, delays := [] }
      else
        let rest := makeRequestLoop cfg net (attempt + 1) remaining (some le)
        { result := rest.result
          attempts := rest.attempts + 1
          delays := (cfg.retry_delay * (attempt : ℚ)) :: rest.delays }

/-- _make_request: injects the api_key into the params and runs the
bounded attempt loop against the network environment. -/
def makeRequest (cfg : Config) (net : SearchParams → Nat → AttemptOutcome)
    (params : SearchParams) : RequestOutcome :=
  makeRequestLoop cfg (net { params with api_key := cfg.api_key }) 1 cfg.retry_attempts Option.none

/-- One nested image block of _transform_response: section dict fetched
with default empty dict, url with default empty string, width and height
(and, for the original section, size) through int() with default 0. -/
def sectionImage (images : JValue) (key : String) (withSize : Bool) : Except PyError GifImage := do
  let sec ← pyGetD images key (.jobj [])
  let url ← pyGetD sec "url" (.jstr "")
  let w ← pyInt (← pyGetD sec "width" (.jint 0))
  let h ← pyInt (← pyGetD sec "height" (.jint 0))
  if withSize then do
    let s ← pyInt (← pyGetD sec "size" (.jint 0))
    return { url := url, width := w, height := h, size := s }
  else
    return { url := url, width := w, height := h }

/-- The per-record try body of _transform_response, building one GifData. -/
def transformRecord (gif_data : JValue) : Except PyError GifData := do
  let images ← pyGetD gif_data "images" (.jobj [])
  let idv ← pyGetD gif_data "id" (.jstr "")
  let titlev ← pyGetD gif_data "title" (.jstr "")
  let urlv ← pyGetD gif_data "url" (.jstr "")
  let ratingv ← pyGetD gif_data "rating" (.jstr "")
  let createdv ← pyGetD gif_data "import_datetime" (.jstr "")
  let tagsv ← pyGetD gif_data "tags" (.jarr [])
  let orig ← sectionImage images "original" true
  let prev ← sectionImage images "fixed_height_small" false
  let thumb ← sectionImage images "fixed_height_small_still" false
  return { id := idv, title := titlev, url := urlv, rating := ratingv,
           created_at := createdv, tags := tagsv,
           original := orig, preview := prev, thumbnail := thumb }

/-- The except (ValueError, KeyError) clause guarding each record: only
these exception classes cause the record to be skipped. -/
def isCaughtTransformError : PyError → Bool
  | .valueError _ => true
  | _ => false

/-- The record loop of _transform_response: records failing with a
caught error are dropped silently; any other error propagates. -/
def transformList : List JValue → Except PyError (List GifData)
  | [] => .ok []
  | r :: rest =>
    match transformRecord r with
    | .ok g => (transformList rest).map (fun gs => g :: gs)
    | .error e =>
      if isCaughtTransformError e then transformList rest else .error e

/-- The record list and pagination extraction of _transform_response. -/
def transformParts (giphy_response : JValue) : Except PyError (List GifData × PaginationData) := do
  let datav ← pyGetD giphy_response "data" (.jarr [])
  let records ← pyIter datav
  let gifs ← transformList records
  let pg ← pyGetD giphy_response "pagination" (.jobj [])
  let total ← pyGetD pg "total_count" (.jint 0)
  let count ← pyGetD pg "count" (.jint 0)
  let offset ← pyGetD pg "offset" (.jint 0)
  return (gifs, { total := total, count := count, offset := offset })

/-- _transform_response: assembles the success AdapterResponse. -/
def transformResponse (giphy_response : JValue) : Except PyError AdapterResponse :=
  match transformParts giphy_response with
  | .error e => .error e
  | .ok parts =>
    .ok { success := true
          data := .list parts.fst
          pagination := some parts.snd
          message := "Found " ++ toString parts.fst.length ++ " GIFs"
          error := Option.none }

/-- _handle_error: isinstance chain mapping the caught exception to an
ErrorType; a ClientResponseError with a status in neither range stays
UNKNOWN_ERROR (the branch sets nothing and the chain stops there). -/
def handle_error (error : PyError) (method : String) : AdapterResponse :=
  let et : ErrorType :=
    match error with
    | .giphyTimeout _ => .TIMEOUT
    | .giphyValidation _ => .VALIDATION_ERROR
    | .clientResponseError status _ =>
      if 400 ≤ status ∧ status < 500 then .CLIENT_ERROR
      else if 500 ≤ status ∧ status < 600 then .SERVER_ERROR
      else .UNKNOWN_ERROR
    | .clientError _ => .NETWORK_ERROR
    | _ => .UNKNOWN_ERROR
  { success := false
    data := AdapterData.none
    pagination := Option.none
    message := ""
    error := some { type := et, message := error.text, method := method } }

/-- Result of a caller-facing operation plus the observable retry trace.
A result of the form Except.error e models an exception escaping the
operation (thrown past its boundary). -/
structure SearchOutcome where
  result : Except PyError AdapterResponse
  attempts : Nat
  delays : List ℚ
deriving Repr

/-- search_gifs: the empty-query guard and validate_search_params run
before the try block, so their exceptions escape; only _make_request and
_transform_response run inside the try whose except funnels every
exception into _handle_error. -/
def search_gifs (cfg : Config) (net : SearchParams → Nat → AttemptOutcome)
    (query : String) (opts : SearchOptions) : SearchOutcome :=
  if query = "" then
    { result := .error (.giphyValidation "Query parameter is required and must be a string")
      attempts := 0
      delays := [] }
  else
    let params := searchParams cfg query opts
    match validate_search_params params.limit params.offset params.rating with
    | .error e => { result := .error e, attempts := 0, delays := [] }
    | .ok _ =>
      let req := makeRequest cfg net params
      match req.result with
      | .ok body =>
        match transformResponse body with
        | .ok resp =>
          { result := .ok resp, attempts := req.attempts, delays := req.delays }
        | .error e =>
          { result := .ok (handle_error e "search_gifs"), attempts := req.attempts, delays := req.delays }
      | .error e =>
        { result := .ok (handle_error e "search_gifs"), attempts := req.attempts, delays := req.delays }

/-- The option override in get_random_gif: limit forced to 1 and offset
forced to 0 over whatever the caller supplied. -/
def forceSingleOptions (opts : SearchOptions) : SearchOptions :=
  { opts with limit := some 1, offset := some 0 }

/-- The no-result response literal of get_random_gif. -/
def noGifResponse : AdapterResponse :=
  { success := true
    data := AdapterData.none
    pagination := Option.none
    message := "No GIF found for query"
    error := Option.none }

/-- The found-response literal of get_random_gif, at the given payload. -/
def gifFoundResponse (d : AdapterData) : AdapterResponse :=
  { success := true
    data := d
    pagination := Option.none
    message := "GIF found"
    error := Option.none }

/-- get_random_gif: delegates to search_gifs with forced options; on a
truthy successful payload returns the first element, otherwise the
no-result success literal. An exception from the delegate propagates. -/
def get_random_gif (cfg : Config) (net : SearchParams → Nat → AttemptOutcome)
    (query : String) (opts : SearchOptions) : SearchOutcome :=
  let out := search_gifs cfg net query (forceSingleOptions opts)
  match out.result with
  | .error e => { out with result := .error e }
  | .ok r =>
    if r.success && r.data.truthy then
      match r.data with
      | .list [] => { out with result := .error (.indexError "list index out of range") }
      | .list (g :: _) => { out with result := .ok (gifFoundResponse (.single g)) }
      | d => { out with result := .ok (gifFoundResponse d) }
    else
      { out with result := .ok noGifResponse }

/-
Concrete inputs used by the closed theorems and witnesses below.
-/

/-- The adapter configuration with every constructor default of
GiphyAdapter init: limit 10, rating pg, retry_attempts 3, retry_delay 1. -/
def defaultConfig : Config := {}

/-- A network on which every attempt fails with a transport-level
aiohttp.ClientError (below HTTP, no status), with distinct messages so
that the surfaced attempt is identifiable. -/
def transportNet : SearchParams → Nat → AttemptOutcome :=
  fun _ i => .transportFault ("boom " ++ toString i)

/-- Whether a body passes the meta-status check of _make_request:
data.get with key meta, then .get with key status, compared with 200. -/
def metaStatusOk (body : JValue) : Bool :=
  match pyGetD body "meta" (.jobj []) with
  | .error _ => false
  | .ok meta =>
    match pyGetOpt meta "status" with
    | .error _ => false
    | .ok st => pyEqInt st 200

/-- The exception classes raised by the validation layer before any
network attempt: GiphyValidation (empty query) and ValueError
(validate_search_params). -/
def isValidationFailure : PyError → Bool
  | .giphyValidation _ => true
  | .valueError _ => true
  | _ => false

/-- A JSON body of the upstream shape: a data list, a pagination dict
and a passing meta.status of 200. -/
def mkSearchBody (records : List JValue) (pfs : List (String × JValue)) : JValue :=
  .jobj [("data", .jarr records), ("pagination", .jobj pfs),
    ("meta", .jobj [("status", .jint 200)])]

/-- The ImageAsset produced for a missing nested image section: empty
URL, zero width, height and size. -/
def emptyImage : GifImage := { url := .jstr "", width := 0, height := 0, size := 0 }

/-- A 200 body whose meta.status is 400: an API-level failure wrapped in
an HTTP 200 envelope. -/
def c4body : JValue :=
  .jobj [("meta", .jobj [("status", .jint 400), ("msg", .jstr "Bad Request")])]

/-- A network that always answers HTTP 200 with the c4body payload. -/
def c4net : SearchParams → Nat → AttemptOutcome := fun _ _ => .http 200 "OK" c4body

/-- A concrete request-parameter record. -/
def sampleParams : SearchParams :=
  { q := "cats", limit := 1, offset := 0, rating := "g", lang := "en" }

/-- A well-formed upstream record whose numeric image fields arrive as
numeric strings. -/
def goodRecord : JValue :=
  .jobj [("id", .jstr "g1"), ("title", .jstr "T"), ("url", .jstr "u"),
    ("rating", .jstr "pg"), ("import_datetime", .jstr "2024"), ("tags", .jarr []),
    ("images", .jobj [
      ("original", .jobj [("url", .jstr "ou"), ("width", .jstr "480"),
        ("height", .jstr "270"), ("size", .jstr "1000")]),
      ("fixed_height_small", .jobj [("url", .jstr "pu"), ("width", .jstr "200"),
        ("height", .jstr "113")]),
      ("fixed_height_small_still", .jobj [("url", .jstr "tu"), ("width", .jstr "200"),
        ("height", .jstr "113")])])]

/-- An upstream record whose nested image width fails int() coercion. -/
def badRecord : JValue :=
  .jobj [("id", .jstr "b1"), ("images", .jobj [("original", .jobj [("width", .jstr "abc")])])]

/-- The GifData produced from goodRecord: string dimensions coerced to
integers. -/
def goodGif : GifData :=
  { id := .jstr "g1", title := .jstr "T", url := .jstr "u", rating := .jstr "pg",
    created_at := .jstr "2024", tags := .jarr [],
    original := { url := .jstr "ou", width := 480, height := 270, size := 1000 },
    preview := { url := .jstr "pu", width := 200, height := 113 },
    thumbnail := { url := .jstr "tu", width := 200, height := 113 } }

/-- Upstream pagination declaring a count of 2. -/
def c5pfs : List (String × JValue) :=
  [("total_count", .jint 100), ("count", .jint 2), ("offset", .jint 0)]

/-- Two upstream records of which exactly the second is malformed. -/
def c5records : List JValue := [goodRecord, badRecord]

/-- A network that always answers HTTP 200 with the two-record body. -/
def c5net : SearchParams → Nat → AttemptOutcome :=
  fun _ _ => .http 200 "OK" (mkSearchBody c5records c5pfs)

/-- A successful upstream body with zero records. -/
def c7body : JValue :=
  .jobj [("data", .jarr []), ("pagination", .jobj [("count", .jint 0)]),
    ("meta", .jobj [("status", .jint 200)])]

/-- A network that always answers HTTP 200 with the zero-record body. -/
def c7net : SearchParams → Nat → AttemptOutcome := fun _ _ => .http 200 "OK" c7body

/-- The successful zero-item response the delegated search produces on
the zero-record body. -/
def c7resp : AdapterResponse :=
  { success := true, data := .list [],
    pagination := some ⟨.jint 0, .jint 0, .jint 0⟩,
    message := "Found 0 GIFs", error := Option.none }

/-- An upstream record carrying a negative original width. -/
def c9record : JValue :=
  .jobj [("id", .jstr "neg"), ("images", .jobj [("original", .jobj [("url", .jstr "u"),
    ("width", .jint (-5)), ("height", .jint 7), ("size", .jint 9)])])]

/-- A successful upstream body with a negative width record and a
negative pagination offset. -/
def c9response : JValue :=
  .jobj [("data", .jarr [c9record]),
    ("pagination", .jobj [("total_count", .jint 1), ("count", .jint 1), ("offset", .jint (-3))]),
    ("meta", .jobj [("status", .jint 200)])]

/-- A network that always answers HTTP 200 with the negative-width body. -/
def c9net : SearchParams → Nat → AttemptOutcome := fun _ _ => .http 200 "OK" c9response

/-- The SearchItem produced from c9record: the negative width passes
through int() coercion unchecked. -/
def c9gif : GifData :=
  { id := .jstr "neg", title := .jstr "", url := .jstr "", rating := .jstr "",
    created_at := .jstr "", tags := .jarr [],
    original := { url := .jstr "u", width := -5, height := 7, size := 9 },
    preview := emptyImage, thumbnail := emptyImage }

/-- The failure envelope search_gifs returns on three transport faults
of transportNet. -/
def c10fail : AdapterResponse :=
  { success := false, data := AdapterData.none, pagination := Option.none, message := "",
    error := some ⟨ErrorType.UNKNOWN_ERROR, "Client error: boom 3", "search_gifs"⟩ }

/-
Helper lemmas shared by the claim theorems.
-/

theorem exceptBind_ok {α β : Type} (a : α) (f : α → Except PyError β) :
    (Except.ok a >>= f : Except PyError β) = f a := rfl

theorem exceptBind_err {α β : Type} (e : PyError) (f : α → Except PyError β) :
    (Except.error e >>= f : Except PyError β) = Except.error e := rfl

theorem exceptPure {α : Type} (a : α) : (pure a : Except PyError α) = Except.ok a := rfl

theorem exceptThrow {α : Type} (e : PyError) : (throw e : Except PyError α) = Except.error e := rfl

theorem pyGetD_error_shape (v : JValue) (k : String) (d : JValue) (e : PyError)
    (h : pyGetD v k d = .error e) : e = .attributeError "object has no attribute get" := by
  cases v <;> simp_all [pyGetD]

theorem pyGetOpt_error_shape (v : JValue) (k : String) (e : PyError)
    (h : pyGetOpt v k = .error e) : e = .attributeError "object has no attribute get" := by
  cases v <;> simp_all [pyGetOpt]

theorem attemptOnce_http200 (reason : String) (body : JValue) :
    attemptOnce (.http 200 reason body) = attemptBody body := rfl

theorem attemptBody_fails (body : JValue) (hmeta : metaStatusOk body = false) :
    ∃ e, attemptBody body = .error e ∧
      e.isAiohttpClientError = false ∧ e ≠ .asyncioTimeout := by
  cases hm : pyGetD body "meta" (.jobj []) with
  | error e =>
    have he := pyGetD_error_shape _ _ _ _ hm
    subst he
    refine ⟨.attributeError "object has no attribute get", ?_, rfl, by simp⟩
    unfold attemptBody
    rw [hm]
    simp [exceptBind_err]
  | ok meta =>
    cases hst : pyGetOpt meta "status" with
    | error e =>
      have he := pyGetOpt_error_shape _ _ _ hst
      subst he
      refine ⟨.attributeError "object has no attribute get", ?_, rfl, by simp⟩
      unfold attemptBody
      rw [hm]
      simp only [exceptBind_ok]
      rw [hst]
      simp [exceptBind_err]
    | ok st =>
      have hfalse : pyEqInt st 200 = false := by
        simp only [metaStatusOk, hm, hst] at hmeta
        exact hmeta
      have hmo : ∃ mf, meta = .jobj mf := by
        cases meta <;> simp [pyGetOpt] at hst
        exact ⟨_, rfl⟩
      rcases hmo with ⟨mf, rfl⟩
      refine ⟨.giphyError ("Giphy API Error: " ++
        pyStr ((lookupField mf "msg").getD (.jstr "Unknown error"))), ?_, rfl, by simp⟩
      unfold attemptBody
      rw [hm]
      simp only [exceptBind_ok]
      rw [hst]
      simp only [exceptBind_ok, hfalse]
      simp [pyGetD, exceptBind_ok, exceptThrow]

theorem mkSearchBody_attempt (records : List JValue) (pfs : List (String × JValue)) :
    attemptBody (mkSearchBody records pfs) = .ok (mkSearchBody records pfs) := by
  unfold attemptBody mkSearchBody
  simp [pyGetD, pyGetOpt, lookupField, pyEqInt, exceptBind_ok, exceptPure]

theorem validate_error_shape (l o : Int) (r : String) (e : PyError)
    (h : validate_search_params l o r = .error e) : isValidationFailure e = true := by
  unfold validate_search_params at h
  split at h
  · cases h; rfl
  · split at h
    · cases h; rfl
    · split at h
      · cases h
      · cases h; rfl

theorem makeRequestLoop_all_fail (cfg : Config) (net : Nat → AttemptOutcome)
    (hf : ∀ i b, attemptOnce (net i) ≠ .ok b) :
    ∀ rem a last, (makeRequestLoop cfg net a rem last).attempts = rem ∧
      ∃ e, (makeRequestLoop cfg net a rem last).result = .error e := by
  intro rem
  induction rem with
  | zero =>
    intro a last
    exact ⟨rfl, ⟨_, rfl⟩⟩
  | succ n ih =>
    intro a last
    cases h : attemptOnce (net a) with
    | ok b => exact absurd h (hf a b)
    | error e =>
      by_cases hn : n = 0
      · subst hn
        simp [makeRequestLoop, h]
      · have h1 := (ih (a + 1) (some (classifyAttemptError e))).1
        have h2 := (ih (a + 1) (some (classifyAttemptError e))).2
        constructor
        · simp [makeRequestLoop, h, hn, h1]
        · simpa [makeRequestLoop, h, hn] using h2

theorem makeRequestLoop_attempts_pos (cfg : Config) (net : Nat → AttemptOutcome)
    (a n : Nat) (last : Option PyError) :
    1 ≤ (makeRequestLoop cfg net a (n + 1) last).attempts := by
  cases h : attemptOnce (net a) with
  | ok b => simp [makeRequestLoop, h]
  | error e =>
    by_cases hn : n = 0
    · subst hn
      simp [makeRequestLoop, h]
    · simp [makeRequestLoop, h, hn]

theorem makeRequestLoop_first_ok (cfg : Config) (net : Nat → AttemptOutcome)
    (a n : Nat) (last : Option PyError) (b : JValue)
    (h : attemptOnce (net a) = .ok b) :
    makeRequestLoop cfg net a (n + 1) last = ⟨.ok b, 1, []⟩ := by
  simp [makeRequestLoop, h]

theorem search_gifs_attempts_eq (cfg : Config) (net : SearchParams → Nat → AttemptOutcome)
    (query : String) (opts : SearchOptions)
    (hq : ¬ query = "")
    (hv : validate_search_params (searchParams cfg query opts).limit
      (searchParams cfg query opts).offset (searchParams cfg query opts).rating = .ok ()) :
    (search_gifs cfg net query opts).attempts =
      (makeRequest cfg net (searchParams cfg query opts)).attempts := by
  simp only [search_gifs, hq, if_false]
  rw [hv]
  cases h1 : (makeRequest cfg net (searchParams cfg query opts)).result with
  | ok body => cases h2 : transformResponse body <;> simp [h1, h2]
  | error e => simp [h1]

theorem transformResponse_ok_shape (b : JValue) (r : AdapterResponse)
    (h : transformResponse b = .ok r) : r.success = true ∧ r.error = Option.none := by
  unfold transformResponse at h
  cases hp : transformParts b with
  | error e => rw [hp] at h; cases h
  | ok parts =>
    rw [hp] at h
    cases h
    exact ⟨rfl, rfl⟩

theorem handle_error_shape (e : PyError) (m : String) :
    (handle_error e m).success = false ∧ (handle_error e m).data = AdapterData.none ∧
      (handle_error e m).error ≠ Option.none := by
  refine ⟨rfl, rfl, ?_⟩
  simp [handle_error]

theorem search_gifs_ok_shape (cfg : Config) (net : SearchParams → Nat → AttemptOutcome)
    (q : String) (opts : SearchOptions) (r : AdapterResponse)
    (h : (search_gifs cfg net q opts).result = .ok r) :
    (r.success = true → r.error = Option.none) ∧
    (r.success = false → r.data = AdapterData.none ∧ r.error ≠ Option.none) := by
  by_cases hq : q = ""
  · simp [search_gifs, hq] at h
  · simp only [search_gifs, hq, if_false] at h
    split at h
    · cases h
    · split at h
      · rename_i body hbody
        split at h
        · rename_i resp hresp
          cases h
          have hshape := transformResponse_ok_shape _ _ hresp
          refine ⟨fun _ => hshape.2, fun hfalse => ?_⟩
          rw [hshape.1] at hfalse
          cases hfalse
        · rename_i e hresp
          cases h
          have hshape := handle_error_shape e "search_gifs"
          refine ⟨fun htrue => ?_, fun _ => ⟨hshape.2.1, hshape.2.2⟩⟩
          rw [hshape.1] at htrue
          cases htrue
      · rename_i e hbody
        cases h
        have hshape := handle_error_shape e "search_gifs"
        refine ⟨fun htrue => ?_, fun _ => ⟨hshape.2.1, hshape.2.2⟩⟩
        rw [hshape.1] at htrue
        cases htrue

theorem get_random_gif_ok_shape (cfg : Config) (net : SearchParams → Nat → AttemptOutcome)
    (q : String) (opts : SearchOptions) (r : AdapterResponse)
    (h : (get_random_gif cfg net q opts).result = .ok r) :
    r.success = true ∧ r.error = Option.none := by
  simp only [get_random_gif] at h
  split at h
  · cases h
  · rename_i r0 hr0
    split at h
    · split at h
      · cases h
      · cases h
        exact ⟨rfl, rfl⟩
      · cases h
        exact ⟨rfl, rfl⟩
    · cases h
      exact ⟨rfl, rfl⟩

theorem sectionImage_missing (ifs : List (String × JValue)) (k : String) (ws : Bool)
    (h : lookupField ifs k = Option.none) :
    sectionImage (.jobj ifs) k ws = .ok emptyImage := by
  cases ws <;>
    simp [sectionImage, emptyImage, pyGetD, h, lookupField, pyInt, exceptBind_ok, exceptPure]

/-
Claim theorems.
-/

/-- Claim C1. With retryAttempts = 3 and three consecutive transport
faults, search makes exactly 3 attempts with two intervening backoff
delays of retryDelay times 1 and retryDelay times 2, and surfaces the
LAST attempt message (boom 3); but the returned Failure kind is
UNKNOWN_ERROR, not NETWORK_ERROR as the claim states, because
_make_request wraps every aiohttp.ClientError into a plain GiphyError
that _handle_error cannot recognise as a network fault. -/
theorem c1_three_transport_failures_give_unknown_kind :
    search_gifs defaultConfig transportNet "cats" {} =
      { result := .ok { success := false,
                        data := AdapterData.none,
                        pagination := Option.none,
                        message := "",
                        error := some ⟨ErrorType.UNKNOWN_ERROR, "Client error: boom 3", "search_gifs"⟩ },
        attempts := 3,
        delays := [1, 2] } ∧
    defaultConfig.retry_delay = 1 ∧ defaultConfig.retry_attempts = 3 := by
  refine ⟨?_, rfl, rfl⟩
  have hq : ¬ ("cats" : String) = "" := by decide
  have hval : validate_search_params (min defaultConfig.limit 50) 0 defaultConfig.rating =
      .ok () := rfl
  simp only [search_gifs, searchParams, Option.getD, hq, if_false]
  rw [hval]
  simp only [makeRequest, defaultConfig, makeRequestLoop, attemptOnce, transportNet,
    classifyAttemptError, handle_error, PyError.text]
  norm_num
  rfl

/-- Claim C2. A failed search whose attempts carry an HTTP status (404
here, and 503) returns a Failure of kind UNKNOWN_ERROR, not CLIENT_ERROR
or SERVER_ERROR as the claim states: the ClientResponseError raised for
a non-200 status is a subclass of aiohttp.ClientError, so the except
clause of _make_request wraps it into a plain GiphyError and the
status-range branches of _handle_error never see it. The last two
conjuncts show those branches themselves implement the claimed mapping
and are therefore dead code on the retry path. -/
theorem c2_http_status_failures_give_unknown_kind :
    ((search_gifs defaultConfig (fun _ _ => .http 404 "Not Found" .jnull) "cats" {}).result =
      .ok { success := false,
            data := AdapterData.none,
            pagination := Option.none,
            message := "",
            error := some ⟨ErrorType.UNKNOWN_ERROR, "Client error: HTTP 404: Not Found", "search_gifs"⟩ }) ∧
    ((search_gifs defaultConfig (fun _ _ => .http 503 "Service Unavailable" .jnull) "cats" {}).result =
      .ok { success := false,
            data := AdapterData.none,
            pagination := Option.none,
            message := "",
            error := some ⟨ErrorType.UNKNOWN_ERROR, "Client error: HTTP 503: Service Unavailable", "search_gifs"⟩ }) ∧
    (handle_error (.clientResponseError 404 "x") "search_gifs").error =
      some ⟨ErrorType.CLIENT_ERROR, "x", "search_gifs"⟩ ∧
    (handle_error (.clientResponseError 503 "x") "search_gifs").error =
      some ⟨ErrorType.SERVER_ERROR, "x", "search_gifs"⟩ :=
  ⟨by rfl, by rfl, by rfl, by rfl⟩

/-- Claim C3, counterexample. For query = "" search does NOT return a
Failure envelope: it raises GiphyValidation past its boundary (the
Except.error result), with zero attempts and no delays. -/
theorem c3_empty_query_raises_counterexample :
    search_gifs defaultConfig transportNet "" {} =
      { result := .error (.giphyValidation "Query parameter is required and must be a string"),
        attempts := 0, delays := [] } := by rfl

/-- Claim C3 as amended. For an empty query, or any options whose
effective post-clamp parameters fail validate_search_params, search
raises a validation exception (GiphyValidation or ValueError) past its
boundary before any network attempt: zero attempts and zero delays. -/
theorem c3_validation_raises_before_any_attempt (cfg : Config)
    (net : SearchParams → Nat → AttemptOutcome) (query : String) (opts : SearchOptions)
    (h : query = "" ∨
      validate_search_params (searchParams cfg query opts).limit
        (searchParams cfg query opts).offset (searchParams cfg query opts).rating ≠ .ok ()) :
    (∃ e, (search_gifs cfg net query opts).result = .error e ∧ isValidationFailure e = true) ∧
    (search_gifs cfg net query opts).attempts = 0 ∧
    (search_gifs cfg net query opts).delays = [] := by
  by_cases hq : query = ""
  · subst hq
    exact ⟨⟨_, rfl, rfl⟩, rfl, rfl⟩
  · rcases h with h | h
    · exact absurd h hq
    · cases hv : validate_search_params (searchParams cfg query opts).limit
        (searchParams cfg query opts).offset (searchParams cfg query opts).rating with
      | error e =>
        refine ⟨⟨e, ?_, validate_error_shape _ _ _ _ hv⟩, ?_, ?_⟩ <;>
          simp [search_gifs, hq, hv]
      | ok u => exact absurd (by rw [hv]) h

/-- Witness for C3 amended, at query = "". -/
theorem c3_validation_witness :
    (∃ e, (search_gifs defaultConfig transportNet "" {}).result = .error e ∧
      isValidationFailure e = true) ∧
    (search_gifs defaultConfig transportNet "" {}).attempts = 0 ∧
    (search_gifs defaultConfig transportNet "" {}).delays = [] :=
  c3_validation_raises_before_any_attempt defaultConfig transportNet "" {} (Or.inl rfl)

/-- Claim C4. An attempt whose HTTP status is 200 but whose body fails
the meta.status check is a failed attempt: it raises an API-level error
that is neither an aiohttp client error nor a timeout, and with every
attempt of that shape the retry loop consumes the whole budget and ends
in an error, never a Success. -/
theorem c4_api_status_error_counts_against_budget (cfg : Config)
    (net : SearchParams → Nat → AttemptOutcome) (params : SearchParams)
    (reason : String) (body : JValue)
    (hnet : ∀ p i, net p i = .http 200 reason body)
    (hmeta : metaStatusOk body = false) :
    (∃ e, attemptOnce (.http 200 reason body) = .error e ∧
      e.isAiohttpClientError = false ∧ e ≠ .asyncioTimeout) ∧
    (makeRequest cfg net params).attempts = cfg.retry_attempts ∧
    ∃ e, (makeRequest cfg net params).result = .error e := by
  have hbody := attemptBody_fails body hmeta
  have hfail : ∀ i b, attemptOnce (net { params with api_key := cfg.api_key } i) ≠ .ok b := by
    intro i b hcontra
    rw [hnet, attemptOnce_http200] at hcontra
    rcases hbody with ⟨e, he, _, _⟩
    rw [he] at hcontra
    cases hcontra
  have hloop := makeRequestLoop_all_fail cfg (net { params with api_key := cfg.api_key })
    hfail cfg.retry_attempts 1 Option.none
  refine ⟨?_, hloop.1, hloop.2⟩
  rcases hbody with ⟨e, he, h1, h2⟩
  exact ⟨e, by rw [attemptOnce_http200]; exact he, h1, h2⟩

/-- Witness for C4, with meta.status 400 inside an HTTP 200 envelope. -/
theorem c4_api_status_witness :
    (∃ e, attemptOnce (.http 200 "OK" c4body) = .error e ∧
      e.isAiohttpClientError = false ∧ e ≠ .asyncioTimeout) ∧
    (makeRequest defaultConfig c4net sampleParams).attempts = defaultConfig.retry_attempts ∧
    ∃ e, (makeRequest defaultConfig c4net sampleParams).result = .error e :=
  c4_api_status_error_counts_against_budget defaultConfig c4net sampleParams "OK" c4body
    (fun _ _ => rfl) rfl

/-- Claim C5. For a successful upstream response of two records of which
exactly one fails integer coercion (in either order), search returns
Success with exactly the one surviving item while pagination count stays
at the upstream-declared jint 2; one attempt, no delays. -/
theorem c5_malformed_record_dropped_count_preserved (cfg : Config)
    (net : SearchParams → Nat → AttemptOutcome)
    (good bad : JValue) (gif : GifData) (e : PyError)
    (pfs : List (String × JValue)) (records : List JValue) (reason : String)
    (hg : transformRecord good = .ok gif)
    (hb : transformRecord bad = .error e)
    (he : isCaughtTransformError e = true)
    (hrec : records = [good, bad] ∨ records = [bad, good])
    (hcount : lookupField pfs "count" = some (.jint 2))
    (hval : validate_search_params (min cfg.limit 50) 0 cfg.rating = .ok ())
    (hatt : 1 ≤ cfg.retry_attempts)
    (hnet : ∀ p i, net p i = .http 200 reason (mkSearchBody records pfs)) :
    ∃ total offset,
      search_gifs cfg net "cats" {} =
        { result := .ok { success := true,
                          data := .list [gif],
                          pagination := some ⟨total, .jint 2, offset⟩,
                          message := "Found 1 GIFs",
                          error := Option.none },
          attempts := 1,
          delays := [] } := by
  have hq : ¬ ("cats" : String) = "" := by decide
  obtain ⟨n, hn⟩ : ∃ n, cfg.retry_attempts = n + 1 := ⟨cfg.retry_attempts - 1, by omega⟩
  have hlist : transformList records = .ok [gif] := by
    rcases hrec with rfl | rfl
    · simp [transformList, hg, hb, he, Except.map]
    · simp [transformList, hg, hb, he, Except.map]
  have hparts : transformParts (mkSearchBody records pfs) =
      .ok ([gif], ⟨(lookupField pfs "total_count").getD (.jint 0), .jint 2,
        (lookupField pfs "offset").getD (.jint 0)⟩) := by
    unfold transformParts mkSearchBody
    simp [pyGetD, pyGetOpt, lookupField, pyIter, hlist, hcount, exceptBind_ok, exceptPure]
  have htr : transformResponse (mkSearchBody records pfs) =
      .ok { success := true,
            data := .list [gif],
            pagination := some ⟨(lookupField pfs "total_count").getD (.jint 0), .jint 2,
              (lookupField pfs "offset").getD (.jint 0)⟩,
            message := "Found 1 GIFs",
            error := Option.none } := by
    unfold transformResponse
    rw [hparts]
    simp
    rfl
  have hreq : ∀ params, makeRequest cfg net params =
      ⟨.ok (mkSearchBody records pfs), 1, []⟩ := by
    intro params
    unfold makeRequest
    rw [hn]
    exact makeRequestLoop_first_ok _ _ _ _ _ _
      (by rw [hnet, attemptOnce_http200, mkSearchBody_attempt])
  refine ⟨(lookupField pfs "total_count").getD (.jint 0),
    (lookupField pfs "offset").getD (.jint 0), ?_⟩
  simp only [search_gifs, searchParams, Option.getD_none, hq, if_false]
  rw [hval]
  rw [hreq]
  simp only [htr]

/-- Witness for C5, on the concrete two-record body. -/
theorem c5_malformed_record_witness :
    ∃ total offset,
      search_gifs defaultConfig c5net "cats" {} =
        { result := .ok { success := true,
                          data := .list [goodGif],
                          pagination := some ⟨total, .jint 2, offset⟩,
                          message := "Found 1 GIFs",
                          error := Option.none },
          attempts := 1,
          delays := [] } :=
  c5_malformed_record_dropped_count_preserved defaultConfig c5net goodRecord badRecord goodGif
    (.valueError "invalid literal for int with base 10: abc") c5pfs c5records "OK"
    rfl rfl rfl (Or.inl rfl) rfl rfl (by decide) (fun _ _ => rfl)

/-- Claim C6. For a caller limit above 50 the effective request limit is
clamped to 50, the clamped request passes validation and reaches the
network (at least one attempt is made); and a nested image section whose
width, height and size arrive as parseable numeric strings yields a
GifImage with those integers. -/
theorem c6_limit_clamped_strings_coerced (cfg : Config)
    (net : SearchParams → Nat → AttemptOutcome)
    (q : String) (opts : SearchOptions) (l : Int)
    (hq : q ≠ "") (hl : opts.limit = some l) (h50 : 50 < l)
    (hoff : 0 ≤ opts.offset.getD 0)
    (hrat : (opts.rating.getD cfg.rating) ∈ validRatings)
    (hatt : 1 ≤ cfg.retry_attempts)
    (u ws hsv sv : String) (wi hiv si : Int)
    (hpw : pyIntOfString ws = some wi)
    (hph : pyIntOfString hsv = some hiv)
    (hps : pyIntOfString sv = some si) :
    (searchParams cfg q opts).limit = 50 ∧
    1 ≤ (search_gifs cfg net q opts).attempts ∧
    sectionImage (.jobj [("original", .jobj [("url", .jstr u), ("width", .jstr ws),
        ("height", .jstr hsv), ("size", .jstr sv)])]) "original" true =
      .ok { url := .jstr u, width := wi, height := hiv, size := si } := by
  have hmin : min l 50 = 50 := min_eq_right (le_of_lt h50)
  have hlim : (searchParams cfg q opts).limit = 50 := by
    simp [searchParams, hl, hmin]
  refine ⟨hlim, ?_, ?_⟩
  · have hv : validate_search_params (searchParams cfg q opts).limit
        (searchParams cfg q opts).offset (searchParams cfg q opts).rating = .ok () := by
      rw [hlim]
      unfold validate_search_params
      rw [if_neg (by omega)]
      rw [if_neg (by simp [searchParams]; omega)]
      rw [if_pos (by simpa [searchParams] using hrat)]
    obtain ⟨n, hn⟩ : ∃ n, cfg.retry_attempts = n + 1 := ⟨cfg.retry_attempts - 1, by omega⟩
    rw [search_gifs_attempts_eq cfg net q opts hq hv]
    unfold makeRequest
    rw [hn]
    exact makeRequestLoop_attempts_pos _ _ _ _ _
  · unfold sectionImage
    simp [pyGetD, lookupField, pyInt, hpw, hph, hps, exceptBind_ok, exceptPure]

/-- Witness for C6, with caller limit 100 and string dimensions. -/
theorem c6_limit_clamp_witness :
    (searchParams defaultConfig "cats" { limit := some 100 }).limit = 50 ∧
    1 ≤ (search_gifs defaultConfig transportNet "cats" { limit := some 100 }).attempts ∧
    sectionImage (.jobj [("original", .jobj [("url", .jstr "ou"), ("width", .jstr "480"),
        ("height", .jstr "270"), ("size", .jstr "1000")])]) "original" true =
      .ok { url := .jstr "ou", width := 480, height := 270, size := 1000 } :=
  c6_limit_clamped_strings_coerced defaultConfig transportNet "cats" { limit := some 100 } 100
    (by decide) rfl (by decide) (by decide) (by decide) (by decide)
    "ou" "480" "270" "1000" 480 270 1000 rfl rfl rfl

/-- Claim C7. get_random_gif delegates to search_gifs with limit forced
to 1 and offset forced to 0: caller-supplied limit and offset are
overridden, and the delegated request parameters carry limit 1 and
offset 0. When the delegated search succeeds with zero items it returns
a Success with empty payload (data None) and the explanatory note, never
a Failure, preserving the attempt trace. -/
theorem c7_get_random_forces_single_and_no_result_success (cfg : Config)
    (net : SearchParams → Nat → AttemptOutcome)
    (q : String) (opts : SearchOptions) (r : AdapterResponse)
    (hs : (search_gifs cfg net q (forceSingleOptions opts)).result = .ok r)
    (hr : r.success = true) (hd : r.data = .list []) :
    (get_random_gif cfg net q opts).result = .ok noGifResponse ∧
    (get_random_gif cfg net q opts).attempts =
      (search_gifs cfg net q (forceSingleOptions opts)).attempts ∧
    (∀ lo oo, get_random_gif cfg net q { opts with limit := lo, offset := oo } =
      get_random_gif cfg net q opts) ∧
    (searchParams cfg q (forceSingleOptions opts)).limit = 1 ∧
    (searchParams cfg q (forceSingleOptions opts)).offset = 0 := by
  refine ⟨?_, ?_, ?_, ?_, ?_⟩
  · simp [get_random_gif, hs, hr, hd, AdapterData.truthy]
  · simp [get_random_gif, hs, hr, hd, AdapterData.truthy]
  · intro lo oo
    cases opts
    rfl
  · simp [searchParams, forceSingleOptions]
  · simp [searchParams, forceSingleOptions]

/-- Witness for C7, on a zero-record upstream body; the override part is
instantiated at caller limit 7 and offset 9. -/
theorem c7_get_random_witness :
    (get_random_gif defaultConfig c7net "zzz" {}).result = .ok noGifResponse ∧
    (get_random_gif defaultConfig c7net "zzz" {}).attempts =
      (search_gifs defaultConfig c7net "zzz" (forceSingleOptions {})).attempts ∧
    (get_random_gif defaultConfig c7net "zzz"
        { ({} : SearchOptions) with limit := some 7, offset := some 9 } =
      get_random_gif defaultConfig c7net "zzz" {}) ∧
    (searchParams defaultConfig "zzz" (forceSingleOptions {})).limit = 1 ∧
    (searchParams defaultConfig "zzz" (forceSingleOptions {})).offset = 0 := by
  have h := c7_get_random_forces_single_and_no_result_success defaultConfig c7net "zzz" {}
    c7resp rfl rfl rfl
  exact ⟨h.1, h.2.1, h.2.2.1 (some 7) (some 9), h.2.2.2.1, h.2.2.2.2⟩

/-- Claim C8. An upstream record whose images dict lacks the original,
fixed_height_small and fixed_height_small_still sections transforms into
a kept SearchItem whose three ImageAssets all have empty URL and zero
width, height and size; the record is not dropped and the operation does
not fail. -/
theorem c8_missing_image_sections_default_empty (rfs ifs : List (String × JValue))
    (himg : lookupField rfs "images" = some (.jobj ifs))
    (h1 : lookupField ifs "original" = Option.none)
    (h2 : lookupField ifs "fixed_height_small" = Option.none)
    (h3 : lookupField ifs "fixed_height_small_still" = Option.none) :
    ∃ gif, transformRecord (.jobj rfs) = .ok gif ∧
      gif.original = emptyImage ∧ gif.preview = emptyImage ∧ gif.thumbnail = emptyImage := by
  refine ⟨⟨(lookupField rfs "id").getD (.jstr ""),
    (lookupField rfs "title").getD (.jstr ""),
    (lookupField rfs "url").getD (.jstr ""),
    (lookupField rfs "rating").getD (.jstr ""),
    (lookupField rfs "import_datetime").getD (.jstr ""),
    (lookupField rfs "tags").getD (.jarr []),
    emptyImage, emptyImage, emptyImage⟩, ?_, rfl, rfl, rfl⟩
  unfold transformRecord
  simp [pyGetD, himg, sectionImage_missing _ _ _ h1, sectionImage_missing _ _ _ h2,
    sectionImage_missing _ _ _ h3, exceptBind_ok, exceptPure]

/-- Witness for C8, on a record whose images dict is empty. -/
theorem c8_missing_sections_witness :
    ∃ gif, transformRecord (.jobj [("id", .jstr "x"), ("images", .jobj [])]) = .ok gif ∧
      gif.original = emptyImage ∧ gif.preview = emptyImage ∧ gif.thumbnail = emptyImage :=
  c8_missing_image_sections_default_empty [("id", .jstr "x"), ("images", .jobj [])] []
    rfl rfl rfl rfl

/-- Claim C9, counterexample. A successful pipeline run can deliver a
SearchItem whose original width is negative (-5) and a PageInfo offset
of -3, because the transform passes upstream values through int()
coercion with no non-negativity check: the claimed invariant fails. -/
theorem c9_negative_upstream_counterexample :
    (search_gifs defaultConfig c9net "cats" {}).result =
      .ok { success := true,
            data := .list [c9gif],
            pagination := some ⟨.jint 1, .jint 1, .jint (-3)⟩,
            message := "Found 1 GIFs",
            error := Option.none } ∧
    c9gif.original.width < 0 ∧
    (search_gifs defaultConfig c9net "cats" {}).attempts = 1 :=
  ⟨by rfl, by decide, by rfl⟩

/-- Claim C9 as amended. The envelope halves of the invariant hold
unconditionally: a Failure envelope (from _handle_error) has success
false, no item data and a present error record; every Success result of
search_gifs carries no error, and every failure result carries no item
data; every result of get_random_gif is a Success with no error. The
dimension and offset halves are not enforced by the code (see the
counterexample) and hold only when the upstream values are themselves
non-negative. -/
theorem c9_envelope_invariants :
    (∀ e m, (handle_error e m).success = false ∧ (handle_error e m).data = AdapterData.none ∧
      (handle_error e m).error ≠ Option.none) ∧
    (∀ cfg net q opts r, (search_gifs cfg net q opts).result = .ok r →
      (r.success = true → r.error = Option.none) ∧
      (r.success = false → r.data = AdapterData.none ∧ r.error ≠ Option.none)) ∧
    (∀ cfg net q opts r, (get_random_gif cfg net q opts).result = .ok r →
      r.success = true ∧ r.error = Option.none) := by
  refine ⟨handle_error_shape, ?_, ?_⟩
  · intro cfg net q opts r h
    exact search_gifs_ok_shape cfg net q opts r h
  · intro cfg net q opts r h
    exact get_random_gif_ok_shape cfg net q opts r h

/-- Witness for C9 amended, at a concrete classified failure. -/
theorem c9_envelope_witness :
    (handle_error (.giphyError "x") "search_gifs").success = false ∧
    (handle_error (.giphyError "x") "search_gifs").data = AdapterData.none ∧
    (handle_error (.giphyError "x") "search_gifs").error ≠ Option.none :=
  c9_envelope_invariants.1 (.giphyError "x") "search_gifs"

/-- Claim C10. get_random_gif never returns a Failure envelope: when the
delegated search returns a Failure it returns a Success with empty
payload and the note No GIF found for query, discarding the error kind
and message; and every envelope it returns has success true. -/
theorem c10_get_random_never_returns_failure (cfg : Config)
    (net : SearchParams → Nat → AttemptOutcome) (q : String) (opts : SearchOptions) :
    (∀ r, (search_gifs cfg net q (forceSingleOptions opts)).result = .ok r →
      r.success = false →
      (get_random_gif cfg net q opts).result = .ok noGifResponse) ∧
    (∀ r, (get_random_gif cfg net q opts).result = .ok r → r.success = true) := by
  constructor
  · intro r hs hfail
    simp [get_random_gif, hs, hfail]
  · intro r h
    exact (get_random_gif_ok_shape cfg net q opts r h).1

/-- Witness for C10: after three transport faults the delegated search
fails with an UNKNOWN_ERROR envelope, and get_random_gif still returns
the no-result Success. -/
theorem c10_get_random_never_failure_witness :
    (get_random_gif defaultConfig transportNet "cats" {}).result = .ok noGifResponse :=
  (c10_get_random_never_returns_failure defaultConfig transportNet "cats" {}).1
    c10fail rfl rfl

end Giphy
